import Mathlib

/-!
Shallow embedding of the mutant-evaluation pipeline of `mutpy/controller.py`
(classes `MutationScore`, `MutationController`, `Mutator`), together with
theorems settling the specification claims about it.

Durations are modelled as rationals, Python lists as Lean lists, and the
per-mutant runtime behaviour (whether compilation raises, whether the module
initialization raises, whether the runner thread is still alive at the join
deadline, and the test result) as explicit inputs.
-/

namespace Mutpy

/-- Embeds `unittest.TestResult` as produced by a suite run: the recorded
failures and errors as `(test id, traceback)` pairs, and the `type_error`
slot of the `CustomTestResult` class of the repository (an execution-environment
`TypeError` recorded separately from genuine test errors). -/
structure TestResult where
  failures : List (String × String)
  errors : List (String × String)
  type_error : Option String
deriving Repr, DecidableEq

/-- Embeds `unittest.TestResult.wasSuccessful`: true when no failures and no
errors were recorded. -/
def TestResult.wasSuccessful (r : TestResult) : Bool :=
  r.failures.isEmpty && r.errors.isEmpty

/-- Embeds class `MutationScore` of `controller.py`: the four outcome
counters. -/
structure MutationScore where
  killed_mutants : Nat
  timeout_mutants : Nat
  incompetent_mutants : Nat
  survived_mutants : Nat
deriving Repr, DecidableEq

/-- The state of a fresh `MutationScore()`: all counters zero. -/
def MutationScore.initial : MutationScore :=
  ⟨0, 0, 0, 0⟩

/-- Embeds the `all_mutants` property of `MutationScore`. -/
def MutationScore.all_mutants (s : MutationScore) : Nat :=
  s.killed_mutants + s.timeout_mutants + s.incompetent_mutants + s.survived_mutants

/-- Embeds `MutationScore.count`:
`bottom = all_mutants - incompetent_mutants`, and the score is
`((killed + timeout) / bottom) * 100` unless `bottom` is zero, in which case
it is `0`.  Python float division is modelled by exact rational division. -/
def MutationScore.count (s : MutationScore) : ℚ :=
  let bottom : Nat := s.all_mutants - s.incompetent_mutants
  if bottom = 0 then 0
  else ((s.killed_mutants + s.timeout_mutants : ℚ) / (bottom : ℚ)) * 100

/-- Embeds `MutationScore.inc_killed`. -/
def MutationScore.inc_killed (s : MutationScore) : MutationScore :=
  { s with killed_mutants := s.killed_mutants + 1 }

/-- Embeds `MutationScore.inc_timeout`. -/
def MutationScore.inc_timeout (s : MutationScore) : MutationScore :=
  { s with timeout_mutants := s.timeout_mutants + 1 }

/-- Embeds `MutationScore.inc_incompetent`. -/
def MutationScore.inc_incompetent (s : MutationScore) : MutationScore :=
  { s with incompetent_mutants := s.incompetent_mutants + 1 }

/-- Embeds `MutationScore.inc_survived`. -/
def MutationScore.inc_survived (s : MutationScore) : MutationScore :=
  { s with survived_mutants := s.survived_mutants + 1 }

/-- The four-way outcome classification of a mutant. -/
inductive Outcome where
  | timedOut
  | incompetent
  | survived
  | killed (killer : String) (exception_traceback : String)
deriving Repr, DecidableEq

/-- Modelled from the spec: `utils.KillableThread` is an independently
cancellable execution unit; only its liveness at the join deadline is
relevant to the controller. -/
structure KillableThread where
  alive : Bool
deriving Repr, DecidableEq

/-- Modelled from the spec: `utils.KillableThread.kill` forcibly terminates
the execution unit, so afterwards it is no longer alive. -/
def KillableThread.kill (_t : KillableThread) : KillableThread :=
  ⟨false⟩

/-- Embeds `MutationController.append_score_and_notify_views`: the branch
chain `is_alive / type_error / wasSuccessful / else`, incrementing exactly
the counter of the taken branch, killing the runner thread on timeout, and
attributing a kill to `failures[0]` and otherwise `errors[0]`.  When the
`else` branch is reached with both lists empty, Python would raise a
`NameError` (`killer` unbound) and the score would be left unchanged; this is
the `none` outcome. -/
def append_score_and_notify_views (score : MutationScore) (result : TestResult)
    (runner_thread : KillableThread) : MutationScore × KillableThread × Option Outcome :=
  if runner_thread.alive then
    (score.inc_timeout, runner_thread.kill, some .timedOut)
  else if result.type_error.isSome then
    (score.inc_incompetent, runner_thread, some .incompetent)
  else if result.wasSuccessful then
    (score.inc_survived, runner_thread, some .survived)
  else
    match result.failures with
    | (killer, tr) :: _ => (score.inc_killed, runner_thread, some (.killed killer tr))
    | [] =>
      match result.errors with
      | (killer, tr) :: _ => (score.inc_killed, runner_thread, some (.killed killer tr))
      | [] => (score, runner_thread, none)

/-- Embeds the deadline computation of `MutationController.run_mutation_thread`:
`live_time = timeout_factor * total_duration if total_duration > 1 else 1`. -/
def live_time (timeout_factor total_duration : ℚ) : ℚ :=
  if total_duration > 1 then timeout_factor * total_duration else 1

/-- Embeds `MutationController.create_mutant_module` acting on the standard
output suppression state.  Input booleans describe how this mutant behaves:
whether `compile(mutant_ast, ...)` succeeds and whether executing the module
body raises.  `utils.StdoutManager` (repository code outside `src/`) is
modelled from the spec as a toggle of a suppression flag, taken with output
suppression enabled.  The source disables stdout, runs `exec`, and re-enables
stdout, all inside `try`; an exception from `compile` is caught before
stdout is touched, while an exception from `exec` is caught after
`disable_stdout()` but before `enable_stdout()`, so in that case the returned
state is still disabled.  Returns `none` exactly when an exception was
caught. -/
def create_mutant_module (compile_ok exec_raises stdout_disabled : Bool) :
    Option Unit × Bool :=
  if compile_ok then
    if exec_raises then (none, true)
    else (some (), false)
  else (none, stdout_disabled)

/-- The behaviour of one mutant yielded by the generator, as consumed by
`MutationController.mutate_module`: whether its tree compiles, whether its
module initialization raises, whether the runner thread is still alive when
`join(live_time)` returns, and the test result recorded by the (fail-fast)
suite run. -/
structure MutantSpec where
  compile_ok : Bool
  exec_raises : Bool
  thread_alive : Bool
  result : TestResult
deriving Repr, DecidableEq

/-- The observable effect of evaluating one mutant: the updated score, the
stdout suppression state afterwards, whether the bounded test runner was
invoked, and the recorded outcome. -/
structure EvalStep where
  score : MutationScore
  stdout_disabled : Bool
  ran_tests : Bool
  outcome : Option Outcome
deriving Repr, DecidableEq

/-- Embeds one iteration of the loop body of
`MutationController.mutate_module`: materialize via `create_mutant_module`;
if a module was produced, run the bounded test runner
(`run_tests_with_mutant`, whose `run_mutation_thread` disables stdout and
re-enables it after `join`) and classify via
`append_score_and_notify_views`; otherwise increment the incompetent counter
without running any test. -/
def evaluate_mutant (score : MutationScore) (stdout_disabled : Bool)
    (m : MutantSpec) : EvalStep :=
  match create_mutant_module m.compile_ok m.exec_raises stdout_disabled with
  | (some _, _) =>
    let r := append_score_and_notify_views score m.result ⟨m.thread_alive⟩
    { score := r.1, stdout_disabled := false, ran_tests := true,
      outcome := r.2.2 }
  | (none, s1) =>
    { score := score.inc_incompetent, stdout_disabled := s1, ran_tests := false,
      outcome := some .incompetent }

/-- Folds `evaluate_mutant` over the mutants yielded for the loaded targets,
threading score and stdout state, as the nested loops of
`run_mutation` / `mutate_module` do. -/
def run_evals (score : MutationScore) (stdout_disabled : Bool) :
    List MutantSpec → MutationScore × Bool
  | [] => (score, stdout_disabled)
  | m :: rest =>
    let st := evaluate_mutant score stdout_disabled m
    run_evals st.score st.stdout_disabled rest

/-- Embeds `MutationController.load_and_check_tests`: run each test module
unmutated; collect `(module, target_test, duration)` handles (modelled by
their durations) for successful ones, and raise
`TestsFailAtOriginal(result)` at the first unsuccessful one.  The exception
is the `Except.error` case, carrying the failing result. -/
def load_and_check_tests : List (TestResult × ℚ) → Except TestResult (List ℚ)
  | [] => .ok []
  | (r, d) :: rest =>
    if r.wasSuccessful then
      match load_and_check_tests rest with
      | .ok ds => .ok (d :: ds)
      | .error e => .error e
    else .error r

/-- A point at which an asynchronous `KeyboardInterrupt` arrives inside the
`try` block of `MutationController.run_mutation`: either while
`load_and_check_tests` is still running (before the local `score` is bound),
or once the mutant loop has evaluated `n` mutants. -/
inductive InterruptPoint where
  | duringBaseline
  | afterEvals (n : Nat)
deriving Repr, DecidableEq

/-- How `run_mutation` terminates: either an exception propagates out
(`TestsFailAtOriginal`, or the `UnboundLocalError` produced by
`return score` when `score` was never assigned), or a score is returned. -/
inductive RunFault where
  | testsFailAtOriginal (result : TestResult)
  | unboundLocalScore
deriving Repr, DecidableEq

/-- One whole run of `MutationController.run_mutation`: the baseline results
with their durations, the mutants yielded for each loaded target, and an
optional interrupt arrival point. -/
structure RunInput where
  suites : List (TestResult × ℚ)
  targets : List (List MutantSpec)
  interrupt : Option InterruptPoint
deriving Repr, DecidableEq

/-- The result of `run_mutation`: a returned score or an escaping
exception. -/
inductive RunResult where
  | returned (score : MutationScore)
  | raised (fault : RunFault)
deriving Repr, DecidableEq

/-- What `run_mutation` did: its return value or escaping exception, and how
many mutants were classified before it finished. -/
structure RunOutcome where
  result : RunResult
  mutants_evaluated : Nat
deriving Repr, DecidableEq

/-- Embeds `MutationController.run_mutation`.  The body runs
`test_modules = load_and_check_tests()` and only then `score =
MutationScore()`, then loops over targets and mutants; `except
KeyboardInterrupt: pass` swallows an interrupt and falls through to `return
score`.  Hence an interrupt during the baseline check reaches `return score`
with `score` unbound — an `UnboundLocalError` escapes; an interrupt during
the mutant loop returns the score accumulated so far; a `TestsFailAtOriginal`
raised by the baseline check propagates (it is not a `KeyboardInterrupt`). -/
def run_mutation (input : RunInput) : RunOutcome :=
  match input.interrupt with
  | some .duringBaseline => ⟨.raised .unboundLocalScore, 0⟩
  | other =>
    match load_and_check_tests input.suites with
    | .error r => ⟨.raised (.testsFailAtOriginal r), 0⟩
    | .ok _ =>
      let specs := input.targets.flatten
      let evaluated :=
        match other with
        | some (.afterEvals n) => specs.take n
        | _ => specs
      ⟨.returned (run_evals MutationScore.initial false evaluated).1, evaluated.length⟩

/-- The per-test behaviour of one test case of a suite run against a mutant. -/
inductive TestOutcome where
  | pass
  | fail (trace : String)
  | error (trace : String)
deriving Repr, DecidableEq

/-- The traceback a non-passing test contributes. -/
def TestOutcome.trace : TestOutcome → String
  | .pass => ""
  | .fail tr => tr
  | .error tr => tr

/-- Modelled from the spec: `suite.run(result)` with `result.failfast =
True` (set in `run_tests_with_mutant`; the fail-fast mechanism lives in
`unittest` and in `utils.CustomTestResult` of the repository, outside `src/`).
Tests run in order; the first failing test is appended to `failures`, the
first erroring test to `errors`, and the run stops there; later tests are
never executed. -/
def run_failfast : List (String × TestOutcome) → TestResult
  | [] => ⟨[], [], none⟩
  | (_, .pass) :: rest => run_failfast rest
  | (name, .fail tr) :: _ => ⟨[(name, tr)], [], none⟩
  | (name, .error tr) :: _ => ⟨[], [(name, tr)], none⟩

/-- A mutation operator capability, as `Mutator.mutate` consumes it:
`op().mutate(target_ast, to_mutate)` enumerates `(mutant, lineno)` pairs.
Operators are taken deterministic, as the re-enumeration claim assumes. -/
structure Operator (ast restriction : Type) where
  enumerate : ast → restriction → List (ast × Nat)

/-- Embeds class `Mutator` of `controller.py`: the registered operator
list. -/
structure Mutator (ast restriction : Type) where
  operators : List (Operator ast restriction)

/-- Embeds `Mutator.add_operator`: appends to the registration list. -/
def Mutator.add_operator (m : Mutator a r) (op : Operator a r) : Mutator a r :=
  ⟨m.operators ++ [op]⟩

/-- Embeds `Mutator.mutate`: for each operator in registration order, for
each `(mutant, lineno)` the operator yields in its own order, yield
`(op, lineno, mutant)`. -/
def Mutator.mutate (m : Mutator a r) (target_ast : a) (to_mutate : r) :
    List (Operator a r × Nat × a) :=
  m.operators.flatMap fun op =>
    (op.enumerate target_ast to_mutate).map fun p => (op, p.2, p.1)

/-- Heads of `failures`, then of `errors`: the candidate killer and traceback
used by the `else` branch of `append_score_and_notify_views`. -/
def TestResult.first_kill (r : TestResult) : Option (String × String) :=
  (r.failures ++ r.errors).head?

/-- The first baseline result that is not successful, if any: the result that
`load_and_check_tests` raises inside `TestsFailAtOriginal`. -/
def first_failing (suites : List (TestResult × ℚ)) : Option TestResult :=
  (suites.find? fun p => !p.1.wasSuccessful).map fun p => p.1

lemma evaluate_mutant_score_cases (s : MutationScore) (st : Bool) (m : MutantSpec) :
    (evaluate_mutant s st m).score = s.inc_killed ∨
    (evaluate_mutant s st m).score = s.inc_timeout ∨
    (evaluate_mutant s st m).score = s.inc_incompetent ∨
    (evaluate_mutant s st m).score = s.inc_survived := by
  rcases m with ⟨co, er, al, fs, es, te⟩
  cases co <;> cases er <;> cases al <;> cases te <;>
    rcases fs with _ | ⟨⟨k, tr⟩, fs⟩ <;> rcases es with _ | ⟨⟨k2, tr2⟩, es⟩ <;>
    simp [evaluate_mutant, create_mutant_module, append_score_and_notify_views,
      TestResult.wasSuccessful]

lemma evaluate_mutant_all_mutants (s : MutationScore) (st : Bool) (m : MutantSpec) :
    (evaluate_mutant s st m).score.all_mutants = s.all_mutants + 1 := by
  rcases evaluate_mutant_score_cases s st m with h | h | h | h <;>
    rw [h] <;>
    simp [MutationScore.all_mutants, MutationScore.inc_killed, MutationScore.inc_timeout,
      MutationScore.inc_incompetent, MutationScore.inc_survived] <;>
    omega

lemma run_evals_all_mutants (specs : List MutantSpec) :
    ∀ (s : MutationScore) (st : Bool),
      (run_evals s st specs).1.all_mutants = s.all_mutants + specs.length := by
  induction specs with
  | nil => intro s st; simp [run_evals]
  | cons m rest ih =>
    intro s st
    simp only [run_evals, List.length_cons]
    rw [ih, evaluate_mutant_all_mutants]
    omega

/-- Claim C1: every mutant consumed by the evaluation loop is recorded in
exactly one of the four score counters — each evaluation step produces a
score equal to the previous score with exactly one counter incremented by
one, and consequently over any run starting from a fresh `MutationScore`,
`killed + timedOut + incompetent + survived` equals the number of mutants
evaluated. -/
theorem C1_counters_partition_mutants :
    (∀ (specs : List MutantSpec),
      (run_evals MutationScore.initial false specs).1.all_mutants = specs.length) ∧
    (∀ (s : MutationScore) (st : Bool) (m : MutantSpec),
      (evaluate_mutant s st m).score = s.inc_killed ∨
      (evaluate_mutant s st m).score = s.inc_timeout ∨
      (evaluate_mutant s st m).score = s.inc_incompetent ∨
      (evaluate_mutant s st m).score = s.inc_survived) := by
  constructor
  · intro specs
    rw [run_evals_all_mutants]
    simp [MutationScore.initial, MutationScore.all_mutants]
  · exact evaluate_mutant_score_cases

/-- Claim C2: `count` returns `100 * (killed + timedOut) / (total -
incompetent)` where `total = killed + timedOut + incompetent + survived`
(that is, `all_mutants`), and returns `0` when the denominator
`total - incompetent` is `0`, never dividing by zero. -/
theorem C2_score_formula (s : MutationScore) :
    s.all_mutants
        = s.killed_mutants + s.timeout_mutants + s.incompetent_mutants + s.survived_mutants ∧
    s.count =
      if s.all_mutants - s.incompetent_mutants = 0 then 0
      else 100 * (s.killed_mutants + s.timeout_mutants : ℚ)
        / ((s.all_mutants : ℚ) - (s.incompetent_mutants : ℚ)) := by
  refine ⟨rfl, ?_⟩
  have hle : s.incompetent_mutants ≤ s.all_mutants := by
    simp [MutationScore.all_mutants]; omega
  unfold MutationScore.count
  by_cases h : s.all_mutants - s.incompetent_mutants = 0
  · simp [h]
  · simp only [h, if_false]
    rw [← Nat.cast_sub hle]
    ring

lemma run_failfast_passes (pre l : List (String × TestOutcome))
    (h : ∀ p ∈ pre, p.2 = TestOutcome.pass) :
    run_failfast (pre ++ l) = run_failfast l := by
  induction pre with
  | nil => rfl
  | cons p rest ih =>
    rcases p with ⟨n, o⟩
    have hp : o = TestOutcome.pass := h (n, o) (by simp)
    subst hp
    simpa only [List.cons_append, run_failfast] using
      ih fun q hq => h q (by simp [hq])

/-- Claim C3: a completed (non-timed-out) run with a genuine test
failure/error is classified `Killed`; the fail-fast suite stops at the first
failing/erroring test, so the recorded result — and hence the kill
attribution — does not depend on the tests behind it; and in the
classification itself the head of `failures` wins over `errors` when both
are non-empty, first-recorded order winning within each list. -/
theorem C3_failfast_kill_attribution :
    (∀ (pre post : List (String × TestOutcome)) (name : String) (out : TestOutcome)
        (score : MutationScore),
      (∀ p ∈ pre, p.2 = TestOutcome.pass) → out ≠ TestOutcome.pass →
      run_failfast (pre ++ (name, out) :: post) = run_failfast (pre ++ [(name, out)]) ∧
      append_score_and_notify_views score (run_failfast (pre ++ (name, out) :: post)) ⟨false⟩
        = (score.inc_killed, ⟨false⟩, some (.killed name out.trace))) ∧
    (∀ (score : MutationScore) (k tr : String) (fs es : List (String × String)),
      append_score_and_notify_views score ⟨(k, tr) :: fs, es, none⟩ ⟨false⟩
        = (score.inc_killed, ⟨false⟩, some (.killed k tr))) := by
  constructor
  · intro pre post name out score hpre hout
    rw [run_failfast_passes pre _ hpre, run_failfast_passes pre _ hpre]
    cases out with
    | pass => exact absurd rfl hout
    | fail tr =>
      exact ⟨rfl, by
        simp [run_failfast, append_score_and_notify_views, TestResult.wasSuccessful,
          TestOutcome.trace]⟩
    | error tr =>
      exact ⟨rfl, by
        simp [run_failfast, append_score_and_notify_views, TestResult.wasSuccessful,
          TestOutcome.trace]⟩
  · intro score k tr fs es
    simp [append_score_and_notify_views, TestResult.wasSuccessful]

/-- Witness for C3 at the concrete scenario of the spec: five tests where tests 2
and 4 fail; the run stops after test 2 and the kill is attributed to test 2,
and with both lists non-empty the first failure wins. -/
theorem C3_failfast_kill_attribution_witness :
    (run_failfast ([("t1", .pass)] ++ ("t2", .fail "tb2")
        :: [("t3", .pass), ("t4", .fail "tb4"), ("t5", .pass)])
      = run_failfast ([("t1", .pass)] ++ [("t2", TestOutcome.fail "tb2")])) ∧
    (append_score_and_notify_views MutationScore.initial
        (run_failfast ([("t1", .pass)] ++ ("t2", .fail "tb2")
          :: [("t3", .pass), ("t4", .fail "tb4"), ("t5", .pass)])) ⟨false⟩
      = (MutationScore.initial.inc_killed, ⟨false⟩,
          some (.killed "t2" (TestOutcome.fail "tb2").trace))) ∧
    (append_score_and_notify_views MutationScore.initial
        ⟨[("f1", "tf1")], [("e1", "te1")], none⟩ ⟨false⟩
      = (MutationScore.initial.inc_killed, ⟨false⟩, some (.killed "f1" "tf1"))) := by
  refine ⟨?_, ?_, ?_⟩
  · exact (C3_failfast_kill_attribution.1 _ _ _ _ MutationScore.initial
      (by decide) (by decide)).1
  · exact (C3_failfast_kill_attribution.1 _ _ _ _ MutationScore.initial
      (by decide) (by decide)).2
  · exact C3_failfast_kill_attribution.2 MutationScore.initial "f1" "tf1" _ _

/-- Claim C4: the deadline is `timeout_factor * total_duration` except that
it is one time unit when the baseline duration is at most one unit (so with
a factor of at least one the deadline is never zero or sub-unit), and a
runner thread still alive at the deadline is forcibly terminated (killed)
and classified `TimedOut` within the same evaluation step. -/
theorem C4_deadline_floor_and_timeout_kill :
    (∀ f t : ℚ, t ≤ 1 → live_time f t = 1) ∧
    (∀ f t : ℚ, 1 < t → live_time f t = f * t) ∧
    (∀ f t : ℚ, 1 ≤ f → 1 ≤ live_time f t) ∧
    (∀ (score : MutationScore) (r : TestResult) (th : KillableThread),
      th.alive = true →
      append_score_and_notify_views score r th
        = (score.inc_timeout, ⟨false⟩, some .timedOut)) := by
  refine ⟨?_, ?_, ?_, ?_⟩
  · intro f t h
    simp [live_time, not_lt.mpr h]
  · intro f t h
    simp [live_time, h]
  · intro f t hf
    unfold live_time
    split
    · nlinarith
    · exact le_refl 1
  · intro score r th h
    simp [append_score_and_notify_views, h, KillableThread.kill]

/-- Witness for C4: baseline duration `1/2` gives deadline `1`; baseline `2`
with factor `5` gives deadline `5 * 2`; the deadline is at least one unit;
and a still-alive thread is killed and classified `TimedOut` even though the
partial result already records a failure. -/
theorem C4_deadline_floor_and_timeout_kill_witness :
    live_time 5 (1 / 2) = 1 ∧ live_time 5 2 = 5 * 2 ∧ (1 : ℚ) ≤ live_time 5 (1 / 2) ∧
    append_score_and_notify_views MutationScore.initial ⟨[("t", "tb")], [], none⟩ ⟨true⟩
      = (MutationScore.initial.inc_timeout, ⟨false⟩, some .timedOut) := by
  refine ⟨?_, ?_, ?_, ?_⟩
  · exact C4_deadline_floor_and_timeout_kill.1 5 (1 / 2) (by norm_num)
  · exact C4_deadline_floor_and_timeout_kill.2.1 5 2 (by norm_num)
  · exact C4_deadline_floor_and_timeout_kill.2.2.1 5 (1 / 2) (by norm_num)
  · exact C4_deadline_floor_and_timeout_kill.2.2.2 MutationScore.initial _ _ rfl

/-- Claim C10: outcome classification follows the strict branch priority of
`append_score_and_notify_views`: a live thread yields `TimedOut` whatever
the partial result holds; otherwise a recorded `type_error` yields
`Incompetent` even with genuine failures recorded; only then a successful
result yields `Survived` and an unsuccessful one `Killed`, attributed to the
head of `failures ++ errors`. -/
theorem C10_classification_priority (score : MutationScore) (r : TestResult)
    (th : KillableThread) :
    (th.alive = true →
      append_score_and_notify_views score r th
        = (score.inc_timeout, ⟨false⟩, some .timedOut)) ∧
    (th.alive = false → r.type_error.isSome = true →
      append_score_and_notify_views score r th
        = (score.inc_incompetent, th, some .incompetent)) ∧
    (th.alive = false → r.type_error = none → r.wasSuccessful = true →
      append_score_and_notify_views score r th
        = (score.inc_survived, th, some .survived)) ∧
    (th.alive = false → r.type_error = none → r.wasSuccessful = false →
      ∀ k tr, r.first_kill = some (k, tr) →
        append_score_and_notify_views score r th
          = (score.inc_killed, th, some (.killed k tr))) := by
  refine ⟨?_, ?_, ?_, ?_⟩
  · intro h
    simp [append_score_and_notify_views, h, KillableThread.kill]
  · intro h hte
    simp [append_score_and_notify_views, h, hte]
  · intro h hte hs
    simp [append_score_and_notify_views, h, hte, hs]
  · intro h hte hs k tr hk
    rcases hfs : r.failures with _ | ⟨⟨k0, t0⟩, fs⟩
    · rcases hes : r.errors with _ | ⟨⟨k1, t1⟩, es⟩
      · have hws : r.wasSuccessful = true := by
          simp [TestResult.wasSuccessful, hfs, hes]
        rw [hws] at hs
        simp at hs
      · have : k1 = k ∧ t1 = tr := by
          have := hk
          simp [TestResult.first_kill, hfs, hes] at this
          exact ⟨this.1, this.2⟩
        rcases this with ⟨rfl, rfl⟩
        simp [append_score_and_notify_views, h, hte, hs, hfs, hes]
    · have : k0 = k ∧ t0 = tr := by
        have := hk
        simp [TestResult.first_kill, hfs] at this
        exact ⟨this.1, this.2⟩
      rcases this with ⟨rfl, rfl⟩
      simp [append_score_and_notify_views, h, hte, hs, hfs]

/-- Witness for C10: with failures, errors, and a `type_error` all recorded,
a live thread still gives `TimedOut`; a dead thread gives `Incompetent`; an
empty result gives `Survived`; and without a `type_error` the recorded
failure head is the killer. -/
theorem C10_classification_priority_witness :
    (append_score_and_notify_views MutationScore.initial
        ⟨[("f", "tf")], [("e", "te")], some "TypeError"⟩ ⟨true⟩
      = (MutationScore.initial.inc_timeout, ⟨false⟩, some .timedOut)) ∧
    (append_score_and_notify_views MutationScore.initial
        ⟨[("f", "tf")], [("e", "te")], some "TypeError"⟩ ⟨false⟩
      = (MutationScore.initial.inc_incompetent, ⟨false⟩, some .incompetent)) ∧
    (append_score_and_notify_views MutationScore.initial ⟨[], [], none⟩ ⟨false⟩
      = (MutationScore.initial.inc_survived, ⟨false⟩, some .survived)) ∧
    (append_score_and_notify_views MutationScore.initial
        ⟨[("f", "tf")], [("e", "te")], none⟩ ⟨false⟩
      = (MutationScore.initial.inc_killed, ⟨false⟩, some (.killed "f" "tf"))) := by
  refine ⟨?_, ?_, ?_, ?_⟩
  · exact (C10_classification_priority MutationScore.initial _ _).1 rfl
  · exact (C10_classification_priority MutationScore.initial _ _).2.1 rfl rfl
  · exact (C10_classification_priority MutationScore.initial _ _).2.2.1 rfl rfl rfl
  · exact (C10_classification_priority MutationScore.initial
      ⟨[("f", "tf")], [("e", "te")], none⟩ ⟨false⟩).2.2.2 rfl rfl (by decide) "f" "tf" rfl

lemma load_error_of_first_failing :
    ∀ (suites : List (TestResult × ℚ)) (r : TestResult),
      first_failing suites = some r →
      r.wasSuccessful = false ∧ load_and_check_tests suites = .error r := by
  intro suites
  induction suites with
  | nil =>
    intro r h
    simp [first_failing] at h
  | cons p rest ih =>
    intro r h
    rcases p with ⟨q, d⟩
    by_cases hq : q.wasSuccessful
    · have h1 : first_failing rest = some r := by
        rw [first_failing, List.find?_cons_of_neg] at h
        · exact h
        · simp [hq]
      obtain ⟨hr, hl⟩ := ih r h1
      refine ⟨hr, ?_⟩
      simp [load_and_check_tests, hq, hl]
    · have h1 : q = r := by
        rw [first_failing, List.find?_cons_of_pos] at h
        · simpa using h
        · simp [hq]
      subst h1
      refine ⟨by simpa using hq, ?_⟩
      simp [load_and_check_tests, hq]

/-- Claim C5: if any configured test suite is unsuccessful when run
unmodified, the run aborts by raising `TestsFailAtOriginal` carrying the
first failing result, and zero mutants are evaluated, regardless of the
configured targets. -/
theorem C5_baseline_failure_aborts (suites : List (TestResult × ℚ))
    (targets : List (List MutantSpec)) (r : TestResult)
    (h : first_failing suites = some r) :
    r.wasSuccessful = false ∧
    run_mutation ⟨suites, targets, none⟩ = ⟨.raised (.testsFailAtOriginal r), 0⟩ := by
  obtain ⟨hr, hl⟩ := load_error_of_first_failing suites r h
  exact ⟨hr, by simp [run_mutation, hl]⟩

/-- Witness for C5: one failing baseline suite and a configured mutant; the
run raises `TestsFailAtOriginal` with that result and evaluates no mutant. -/
theorem C5_baseline_failure_aborts_witness :
    (⟨[], [("t1", "boom")], none⟩ : TestResult).wasSuccessful = false ∧
    run_mutation ⟨[(⟨[], [("t1", "boom")], none⟩, 3)],
        [[⟨true, false, false, ⟨[], [], none⟩⟩]], none⟩
      = ⟨.raised (.testsFailAtOriginal ⟨[], [("t1", "boom")], none⟩), 0⟩ :=
  C5_baseline_failure_aborts _ _ _ (by decide)

/-- Claim C6: a mutant whose tree fails to materialize — compilation fails
or module initialization raises — is classified `Incompetent` and the
bounded test runner is never invoked for it. -/
theorem C6_materialization_failure_incompetent (s : MutationScore) (st : Bool)
    (m : MutantSpec) (h : m.compile_ok = false ∨ m.exec_raises = true) :
    (create_mutant_module m.compile_ok m.exec_raises st).1 = none ∧
    (evaluate_mutant s st m).score = s.inc_incompetent ∧
    (evaluate_mutant s st m).ran_tests = false ∧
    (evaluate_mutant s st m).outcome = some .incompetent := by
  rcases m with ⟨co, er, al, res⟩
  rcases h with h | h <;> subst h <;> first
  | (cases er <;> simp [create_mutant_module, evaluate_mutant])
  | (cases co <;> simp [create_mutant_module, evaluate_mutant])

/-- Witness for C6: a mutant whose compilation fails is `Incompetent` and
never runs tests. -/
theorem C6_materialization_failure_incompetent_witness :
    (create_mutant_module false false false).1 = none ∧
    (evaluate_mutant MutationScore.initial false
      ⟨false, false, false, ⟨[], [], none⟩⟩).score
        = MutationScore.initial.inc_incompetent ∧
    (evaluate_mutant MutationScore.initial false
      ⟨false, false, false, ⟨[], [], none⟩⟩).ran_tests = false ∧
    (evaluate_mutant MutationScore.initial false
      ⟨false, false, false, ⟨[], [], none⟩⟩).outcome = some .incompetent :=
  C6_materialization_failure_incompetent MutationScore.initial false
    ⟨false, false, false, ⟨[], [], none⟩⟩ (Or.inl rfl)

/-- Claim C7 fails on the code: in `create_mutant_module`, `disable_stdout()`
runs before `exec`, and when `exec` raises, the handler returns `None`
without ever calling `enable_stdout()`, so the stdout-disabled state
persists past the evaluation step: with stdout initially enabled, a mutant
that compiles but whose initialization raises leaves stdout disabled. -/
theorem C7_stdout_left_disabled_on_init_failure :
    create_mutant_module true true false = (none, true) ∧
    (evaluate_mutant MutationScore.initial false
      ⟨true, true, false, ⟨[], [], none⟩⟩).stdout_disabled = true := by
  decide

/-- Claim C8 fails on the code: in `run_mutation` the local `score` is bound
only after `load_and_check_tests()` returns, so a `KeyboardInterrupt` during
baseline validation falls through `except KeyboardInterrupt: pass` to
`return score` with `score` unbound and an `UnboundLocalError` escapes — no
partial score is returned.  An interrupt arriving once the mutant loop is
underway does return the partial score. -/
theorem C8_interrupt_during_baseline_faults :
    run_mutation ⟨[(⟨[], [], none⟩, 2)], [[⟨true, false, false, ⟨[], [], none⟩⟩]],
        some .duringBaseline⟩
      = ⟨.raised .unboundLocalScore, 0⟩ ∧
    run_mutation ⟨[(⟨[], [], none⟩, 2)],
        [[⟨true, false, false, ⟨[], [], none⟩⟩, ⟨true, false, false, ⟨[], [], none⟩⟩]],
        some (.afterEvals 1)⟩
      = ⟨.returned ⟨0, 0, 0, 1⟩, 1⟩ := by
  decide

/-- Claim C9: `Mutator.mutate` yields mutations operator by operator in
registration order, within each operator in the order that operator yields,
and the sequence is a function of the operator list and the inputs alone, so
re-enumerating with the same (deterministic) operators and target yields the
same sequence of `(operator, line, tree)` tuples. -/
theorem C9_generator_order_and_determinism :
    (∀ (a r : Type) (ops1 ops2 : List (Operator a r)) (t : a) (m : r),
      Mutator.mutate ⟨ops1 ++ ops2⟩ t m
        = Mutator.mutate ⟨ops1⟩ t m ++ Mutator.mutate ⟨ops2⟩ t m) ∧
    (∀ (a r : Type) (op : Operator a r) (t : a) (m : r),
      Mutator.mutate ⟨[op]⟩ t m
        = (op.enumerate t m).map fun p => (op, p.2, p.1)) ∧
    (∀ (a r : Type) (m1 m2 : Mutator a r) (t : a) (m : r),
      m1.operators = m2.operators → m1.mutate t m = m2.mutate t m) := by
  refine ⟨?_, ?_, ?_⟩
  · intro a r ops1 ops2 t m
    simp [Mutator.mutate]
  · intro a r op t m
    simp [Mutator.mutate]
  · intro a r m1 m2 t m h
    rw [Mutator.mutate, Mutator.mutate, h]

/-- Sample operator for the generator witnesses: yields two mutations. -/
def opAddOne : Operator Nat Nat :=
  ⟨fun t _ => [(t + 1, 1), (t + 2, 2)]⟩

/-- Sample operator for the generator witnesses: yields one mutation. -/
def opDouble : Operator Nat Nat :=
  ⟨fun t _ => [(t * 2, 3)]⟩

/-- Witness for C9 at concrete operators and target. -/
theorem C9_generator_order_and_determinism_witness :
    Mutator.mutate ⟨[opAddOne] ++ [opDouble]⟩ 7 0
      = Mutator.mutate ⟨[opAddOne]⟩ 7 0 ++ Mutator.mutate ⟨[opDouble]⟩ 7 0 ∧
    Mutator.mutate ⟨[opAddOne]⟩ 7 0
      = (opAddOne.enumerate 7 0).map (fun p => (opAddOne, p.2, p.1)) ∧
    Mutator.mutate ⟨[opAddOne, opDouble]⟩ 7 0
      = Mutator.mutate ⟨[opAddOne, opDouble]⟩ 7 0 :=
  ⟨C9_generator_order_and_determinism.1 Nat Nat [opAddOne] [opDouble] 7 0,
   C9_generator_order_and_determinism.2.1 Nat Nat opAddOne 7 0,
   C9_generator_order_and_determinism.2.2 Nat Nat ⟨[opAddOne, opDouble]⟩
     ⟨[opAddOne, opDouble]⟩ 7 0 rfl⟩

end Mutpy
